import Mathlib

/-!
Verification development for the `termshot` library: a shallow embedding of
the color theme model (`themes.py`), the color resolution and compositing
renderer (`renderer.py`), the PTY capture loop (`runner.py`), and the
screenshot orchestration state (`screenshotter.py`), together with theorems
settling the specified behavioural properties.

Conventions of the embedding:
* Python `str | int` color descriptors become the `PyColor` sum type.
* Python code that can raise (hex decoding via `int(s, 16)`, and everything
  downstream of it) is embedded with `Option`: `none` models a raised
  `ValueError`.
* `PIL` drawing is modelled symbolically: an `Image` is its dimensions, the
  fill color passed to `Image.new`, and the ordered list of draw calls
  (`rectangle` / `ellipse` / `text` / `line`) issued against it.  Font
  rasterization itself is external to the repository.
* Glyph metrics (`_char_width`, `_char_height`) are measured via Pillow at
  renderer construction in the source; here they are fields of the renderer
  record, fixed for the renderer lifetime, exactly as cached in `__init__`.
-/

namespace Termshot

/-- An RGB triple as returned by `Theme.hex_to_rgb` (a Python 3-tuple). -/
structure RGB where
  r : Nat
  g : Nat
  b : Nat
deriving DecidableEq

/-- `themes.py` `Theme` dataclass: name, background/foreground/cursor hex
strings, and the 16-entry ANSI base palette. -/
structure Theme where
  name : String
  background : String
  foreground : String
  cursor : String
  palette : List String
deriving DecidableEq

/-- One hexadecimal digit of `int(s, 16)`: value of an ASCII hex digit
character, `none` for anything else. -/
def hexDigitVal (c : Char) : Option Nat :=
  if 48 ≤ c.toNat ∧ c.toNat ≤ 57 then some (c.toNat - 48)
  else if 97 ≤ c.toNat ∧ c.toNat ≤ 102 then some (c.toNat - 97 + 10)
  else if 65 ≤ c.toNat ∧ c.toNat ≤ 70 then some (c.toNat - 65 + 10)
  else none

/-- `c` is an ASCII hexadecimal digit. -/
def isHexDigit (c : Char) : Bool :=
  (hexDigitVal c).isSome

/-- Accumulating base-16 evaluation of a digit string. -/
def parseHexAux : List Char → Nat → Option Nat
  | [], acc => some acc
  | c :: cs, acc =>
    match hexDigitVal c with
    | some d => parseHexAux cs (acc * 16 + d)
    | none => none

/-- Python `int(s, 16)` restricted to plain digit strings: `none` (a raised
`ValueError`) on the empty string or any non-hex-digit character. -/
def parseHex (cs : List Char) : Option Nat :=
  match cs with
  | [] => none
  | _ => parseHexAux cs 0

/-- Python slicing `s[i:j]` for `0 ≤ i ≤ j` on a character list. -/
def pySlice (cs : List Char) (i j : Nat) : List Char :=
  (cs.drop i).take (j - i)

/-- `Theme.hex_to_rgb`: strip leading `#` characters (`str.lstrip('#')`),
then decode the three two-character slices at offsets 0, 2, 4 in base 16.
`none` models a raised `ValueError` on malformed input. -/
def hex_to_rgb (hex_color : String) : Option RGB :=
  let cs := hex_color.data.dropWhile (fun c => c = '#')
  match parseHex (pySlice cs 0 2), parseHex (pySlice cs 2 4), parseHex (pySlice cs 4 6) with
  | some r, some g, some b => some ⟨r, g, b⟩
  | _, _, _ => none

/-- Python `s.startswith("#")`: the first character is `'#'`. -/
def startsWithHash (s : String) : Bool :=
  match s.data with
  | c :: _ => c = '#'
  | [] => false

/-- `Theme.get_color`: the palette entry at `index` when `0 <= index <
len(palette)`, else the theme foreground. -/
def Theme.get_color (t : Theme) (index : Int) : String :=
  if 0 ≤ index ∧ index < (t.palette.length : Int) then
    t.palette.getD index.toNat t.foreground
  else
    t.foreground

/-- A Python `str | int` color descriptor as stored in a `Cell`. -/
inductive PyColor where
  | str (s : String)
  | int (n : Int)
deriving DecidableEq

/-- `emulator.py` `Cell` dataclass. -/
structure Cell where
  char : String
  fg : PyColor
  bg : PyColor
  bold : Bool := false
  italic : Bool := false
  underline : Bool := false
  strikethrough : Bool := false
  reverse : Bool := false
deriving DecidableEq

/-- `renderer.py` `TerminalRenderer` configuration state.  `char_width` and
`char_height` are the glyph metrics measured once by `_calculate_char_size`
at construction (the Pillow font measurement itself is external); all fields
are set in `__init__` and never reassigned. -/
structure TerminalRenderer where
  theme : Theme
  font_size : Nat
  padding : Nat
  show_window_chrome : Bool
  char_width : Nat
  char_height : Nat
deriving DecidableEq

/-- `TerminalRenderer._get_color_rgb`.  The Python body is a sequence of
type tests (`color == "default"`, `isinstance(color, int)`,
`isinstance(color, str)`); since an `int` is never equal to the string
`"default"`, matching on the descriptor first is control-flow equivalent.
Integer arithmetic in the 16–231 branch happens on a value already known to
be `≥ 16`, so the `Int.toNat` conversion is exact. -/
def TerminalRenderer.get_color_rgb (r : TerminalRenderer) (color : PyColor)
    (is_foreground : Bool) : Option RGB :=
  match color with
  | .str s =>
    if s = "default" then
      hex_to_rgb (if is_foreground then r.theme.foreground else r.theme.background)
    else if startsWithHash s then
      hex_to_rgb s
    else
      hex_to_rgb (if is_foreground then r.theme.foreground else r.theme.background)
  | .int n =>
    if 0 ≤ n ∧ n < 16 then
      hex_to_rgb (r.theme.get_color n)
    else if 16 ≤ n ∧ n < 232 then
      let j := (n - 16).toNat
      let rr := (j / 36) % 6
      let gg := (j / 6) % 6
      let bb := j % 6
      some ⟨if rr = 0 then 0 else 55 + rr * 40,
            if gg = 0 then 0 else 55 + gg * 40,
            if bb = 0 then 0 else 55 + bb * 40⟩
    else if 232 ≤ n ∧ n < 256 then
      let gray := 8 + (n - 232).toNat * 10
      some ⟨gray, gray, gray⟩
    else
      hex_to_rgb (if is_foreground then r.theme.foreground else r.theme.background)

/-- `themes.py` `DEFAULT_THEME`. -/
def DEFAULT_THEME : Theme :=
  { name := "default"
    background := "#1e1e1e"
    foreground := "#d4d4d4"
    cursor := "#ffffff"
    palette :=
      ["#000000", "#cd3131", "#0dbc79", "#e5e510", "#2472c8", "#bc3fbc", "#11a8cd", "#e5e5e5",
       "#666666", "#f14c4c", "#23d18b", "#f5f543", "#3b8eea", "#d670d6", "#29b8db", "#ffffff"] }

/-- `themes.py` `DRACULA_THEME`. -/
def DRACULA_THEME : Theme :=
  { name := "dracula"
    background := "#282a36"
    foreground := "#f8f8f2"
    cursor := "#f8f8f2"
    palette :=
      ["#21222c", "#ff5555", "#50fa7b", "#f1fa8c", "#bd93f9", "#ff79c6", "#8be9fd", "#f8f8f2",
       "#6272a4", "#ff6e6e", "#69ff94", "#ffffa5", "#d6acff", "#ff92df", "#a4ffff", "#ffffff"] }

/-- `themes.py` `MONOKAI_THEME`. -/
def MONOKAI_THEME : Theme :=
  { name := "monokai"
    background := "#272822"
    foreground := "#f8f8f2"
    cursor := "#f8f8f0"
    palette :=
      ["#272822", "#f92672", "#a6e22e", "#f4bf75", "#66d9ef", "#ae81ff", "#a1efe4", "#f8f8f2",
       "#75715e", "#f92672", "#a6e22e", "#f4bf75", "#66d9ef", "#ae81ff", "#a1efe4", "#f9f8f5"] }

/-- `themes.py` `NORD_THEME`. -/
def NORD_THEME : Theme :=
  { name := "nord"
    background := "#2e3440"
    foreground := "#d8dee9"
    cursor := "#d8dee9"
    palette :=
      ["#3b4252", "#bf616a", "#a3be8c", "#ebcb8b", "#81a1c1", "#b48ead", "#88c0d0", "#e5e9f0",
       "#4c566a", "#bf616a", "#a3be8c", "#ebcb8b", "#81a1c1", "#b48ead", "#8fbcbb", "#eceff4"] }

/-- `themes.py` `THEMES` registry, as an ordered association list. -/
def THEMES : List (String × Theme) :=
  [("default", DEFAULT_THEME), ("dracula", DRACULA_THEME),
   ("monokai", MONOKAI_THEME), ("nord", NORD_THEME)]

/-- Python `str.lower()`, character by character; `Char.toLower` agrees with
Python on the ASCII range, which covers every registry key. -/
def pyLower (s : String) : String :=
  ⟨s.data.map Char.toLower⟩

/-- `themes.py` `get_theme`: `THEMES.get(name.lower(), DEFAULT_THEME)`. -/
def get_theme (name : String) : Theme :=
  (THEMES.lookup (pyLower name)).getD DEFAULT_THEME

/-- One Pillow draw call issued during rendering.  Button indicator fills in
the window chrome are passed to Pillow as hex strings in the source, so
`ellipse` carries a string fill; the other calls receive RGB tuples. -/
inductive DrawOp where
  | rect (x0 y0 x1 y1 : Int) (fill : RGB)
  | ellipse (x0 y0 x1 y1 : Int) (fill : String)
  | text (x y : Int) (s : String) (bold : Bool) (fill : RGB)
  | line (x0 y0 x1 y1 : Int) (fill : RGB) (width : Nat)
deriving DecidableEq

/-- A rendered image: dimensions, the fill color given to `Image.new`, and
the ordered draw calls subsequently applied to it.  Two equal `Image`
values rasterize to identical pixels under any fixed Pillow semantics. -/
structure Image where
  width : Nat
  height : Nat
  fill : RGB
  ops : List DrawOp
deriving DecidableEq

/-- `min(255, c + 30)` channel lightening used for the title bar. -/
def lighten (c : Nat) : Nat := min 255 (c + 30)

/-- `TerminalRenderer._draw_window_chrome`: the title-bar rectangle in a
lightened background color followed by the three macOS-style button
ellipses.  `none` models the `ValueError` raised when the theme background
fails to decode. -/
def TerminalRenderer.draw_window_chrome (r : TerminalRenderer) (width : Nat) :
    Option (List DrawOp) :=
  (hex_to_rgb r.theme.background).map (fun bg_rgb =>
    let chrome_height : Int := 36
    let button_radius : Int := 6
    let button_spacing : Int := 20
    let button_y : Int := chrome_height / 2
    let title_bar_color : RGB := ⟨lighten bg_rgb.r, lighten bg_rgb.g, lighten bg_rgb.b⟩
    let button_colors := ["#ff5f56", "#ffbd2e", "#27c93f"]
    DrawOp.rect 0 0 (width : Int) chrome_height title_bar_color ::
      (List.range 3).map (fun i =>
        let x : Int := (r.padding : Int) + Int.ofNat i * button_spacing
        DrawOp.ellipse (x - button_radius) (button_y - button_radius)
          (x + button_radius) (button_y + button_radius)
          (button_colors.getD i "")))

/-- The per-cell body of the `render` loop (`renderer.py` lines 240-276):
resolve both colors, swap on reverse video, emit the background rectangle
when `cell.bg != "default" or cell.reverse`, the glyph when the character
is non-empty and not a space, and the underline / strikethrough strokes. -/
def TerminalRenderer.cell_ops (r : TerminalRenderer) (cell : Cell) (x y : Int) :
    Option (List DrawOp) :=
  match r.get_color_rgb cell.fg true, r.get_color_rgb cell.bg false with
  | some fg0, some bg0 =>
    let fg_color := if cell.reverse then bg0 else fg0
    let bg_color := if cell.reverse then fg0 else bg0
    let bgOps :=
      if cell.bg ≠ PyColor.str "default" ∨ cell.reverse = true then
        [DrawOp.rect x y (x + (r.char_width : Int)) (y + (r.char_height : Int)) bg_color]
      else []
    let textOps :=
      if cell.char ≠ "" ∧ cell.char ≠ " " then
        [DrawOp.text x y cell.char cell.bold fg_color]
      else []
    let ulOps :=
      if cell.underline then
        [DrawOp.line x (y + (r.char_height : Int) - 2)
          (x + (r.char_width : Int)) (y + (r.char_height : Int) - 2) fg_color 1]
      else []
    let stOps :=
      if cell.strikethrough then
        [DrawOp.line x (y + (r.char_height : Int) / 2)
          (x + (r.char_width : Int)) (y + (r.char_height : Int) / 2) fg_color 1]
      else []
    some (bgOps ++ textOps ++ ulOps ++ stOps)
  | _, _ => none

/-- Inner loop over a row's cells (`for col_idx, cell in enumerate(row)`),
with `x = padding + col_idx * char_width`. -/
def TerminalRenderer.row_ops (r : TerminalRenderer) (y : Int) :
    List Cell → Nat → Option (List DrawOp)
  | [], _ => some []
  | cell :: cs, col_idx =>
    match r.cell_ops cell ((r.padding : Int) + (col_idx : Int) * (r.char_width : Int)) y,
          r.row_ops y cs (col_idx + 1) with
    | some here, some rest => some (here ++ rest)
    | _, _ => none

/-- Outer loop over rows (`for row_idx, row in enumerate(buffer)`), with
`y = padding + chrome_height + row_idx * char_height`. -/
def TerminalRenderer.grid_ops (r : TerminalRenderer) (chrome_height : Nat) :
    List (List Cell) → Nat → Option (List DrawOp)
  | [], _ => some []
  | row :: rest, row_idx =>
    match r.row_ops ((r.padding : Int) + (chrome_height : Int)
            + (row_idx : Int) * (r.char_height : Int)) row 0,
          r.grid_ops chrome_height rest (row_idx + 1) with
    | some here, some more => some (here ++ more)
    | _, _ => none

/-- `TerminalRenderer.render`: the empty-buffer short circuit, canvas sizing,
background fill, optional window chrome, then the row-major cell loop. -/
def TerminalRenderer.render (r : TerminalRenderer) (buffer : List (List Cell)) :
    Option Image :=
  if buffer = [] ∨ buffer.headD [] = [] then
    (hex_to_rgb r.theme.background).map (fun bg => ⟨100, 100, bg, []⟩)
  else
    let rows := buffer.length
    let cols := (buffer.headD []).length
    let content_width := cols * r.char_width
    let content_height := rows * r.char_height
    let chrome_height := if r.show_window_chrome then 36 else 0
    let img_width := content_width + 2 * r.padding
    let img_height := content_height + 2 * r.padding + chrome_height
    match hex_to_rgb r.theme.background,
          (if r.show_window_chrome then r.draw_window_chrome img_width else some []),
          r.grid_ops chrome_height buffer 0 with
    | some bg_color, some chromeOps, some cellOps =>
      some ⟨img_width, img_height, bg_color, chromeOps ++ cellOps⟩
    | _, _, _ => none

/-- A `render` call with the renderer's state and the caller's buffer
threaded explicitly: the method body only reads `self` and `buffer` and
assigns locals, so the translated call returns both unchanged. -/
def TerminalRenderer.render_call (r : TerminalRenderer) (buffer : List (List Cell)) :
    Option Image × TerminalRenderer × List (List Cell) :=
  (r.render buffer, r, buffer)

/-- The color-resolution prefix of the per-cell loop body (`renderer.py`
lines 240-246): resolve foreground and background, then swap the two
resolved triples when the reverse flag is set. -/
def TerminalRenderer.resolve_cell (r : TerminalRenderer) (cell : Cell) :
    Option (RGB × RGB) :=
  match r.get_color_rgb cell.fg true, r.get_color_rgb cell.bg false with
  | some fg_color, some bg_color =>
    some (if cell.reverse then (bg_color, fg_color) else (fg_color, bg_color))
  | _, _ => none

/-- `ops` contains a `rectangle` draw call. -/
def isBgRect : DrawOp → Bool
  | .rect _ _ _ _ _ => true
  | _ => false

/-- Whether a list of draw calls paints at least one rectangle. -/
def hasBgRect (ops : List DrawOp) : Bool :=
  ops.any isBgRect

/-- An observable action of the `PTYRunner.run` read loop: a process-group
signal (`os.killpg`), a data read from the master descriptor, or the final
drain read taken after the child is seen to have exited. -/
inductive RunAction where
  | killpg (sig : Nat)
  | readData (bytes : List Nat)
  | drainRead (bytes : List Nat)
deriving DecidableEq

/-- The environment's answers for one iteration of the `while True` loop in
`PTYRunner.run`: the elapsed wall time at the top of the iteration, the
`process.poll()` result, whether `select` reported the master descriptor
readable, the outcome of `os.read` (`none` models `OSError`, `some []`
end-of-file, `some bs` data), and the readiness/result of the 0.05-second
drain `select`/`read` used on the process-exited path. -/
structure IterEnv where
  elapsed : Nat
  poll : Option Int
  selectReady : Bool
  readResult : Option (List Nat)
  drainReady : Bool
  drainResult : List Nat
deriving DecidableEq

/-- `elapsed >= timeout` guard at the top of the loop (`timeout is not None`
and the deadline has passed). -/
def timedOut (timeout : Option Nat) (elapsed : Nat) : Bool :=
  match timeout with
  | none => false
  | some t => t ≤ elapsed

/-- The `PTYRunner.run` read loop over a finite trace of environment
iterations, accumulating captured bytes (`self.output`) and the observable
actions.  Each arm mirrors the loop body: timeout check first (SIGTERM = 15
to the process group, then `break`); then the `select`-ready read with its
`OSError` and end-of-file breaks; else, if the process has exited, one
bounded drain read and `break`; otherwise loop.  An exhausted trace returns
the state accumulated so far. -/
def runLoop (timeout : Option Nat) :
    List IterEnv → List Nat → List RunAction → List Nat × List RunAction
  | [], out, acts => (out, acts)
  | e :: rest, out, acts =>
    if timedOut timeout e.elapsed then
      (out, acts ++ [RunAction.killpg 15])
    else if e.selectReady then
      match e.readResult with
      | none => (out, acts)
      | some [] =>
        match e.poll with
        | some _ => (out, acts)
        | none => runLoop timeout rest out acts
      | some bs => runLoop timeout rest (out ++ bs) (acts ++ [RunAction.readData bs])
    else
      match e.poll with
      | some _ =>
        if e.drainReady then
          (out ++ e.drainResult, acts ++ [RunAction.drainRead e.drainResult])
        else (out, acts)
      | none => runLoop timeout rest out acts

/-- `PTYRunner.run` after a successful spawn, starting from an empty
`self.output`, returning the captured bytes and the observed actions. -/
def PTYRunner.run (timeout : Option Nat) (trace : List IterEnv) :
    List Nat × List RunAction :=
  runLoop timeout trace [] []

/-- Library error kinds surfaced by `Screenshotter`: the
`RuntimeError("No command has been run yet. Call run() first.")` usage
precondition, and a rendering failure propagated from color decoding. -/
inductive ShotError where
  | runtimeNotRun
  | renderFailure
deriving DecidableEq

/-- `screenshotter.py` `Screenshotter` state relevant to the capture/render
ordering: the renderer, the emulator's buffer snapshot, the raw output, and
the `_has_run` flag (initially `false` in `__init__`). -/
structure Screenshotter where
  renderer : TerminalRenderer
  buffer : List (List Cell)
  output : List Nat
  has_run : Bool
deriving DecidableEq

/-- `Screenshotter.run`: the PTY capture and the pyte-based terminal
emulation are external effects, abstracted here as the captured byte string
and the buffer snapshot they produce; the method stores both and sets
`_has_run = True` before returning. -/
def Screenshotter.run (s : Screenshotter) (captured : List Nat)
    (buf : List (List Cell)) : Screenshotter :=
  { s with output := captured, buffer := buf, has_run := true }

/-- `Screenshotter.to_image`: raises the usage-precondition `RuntimeError`
before touching the buffer or renderer when `_has_run` is false, else
renders the emulator buffer. -/
def Screenshotter.to_image (s : Screenshotter) : Except ShotError Image :=
  if s.has_run = false then
    .error .runtimeNotRun
  else
    match s.renderer.render s.buffer with
    | some img => .ok img
    | none => .error .renderFailure

/-- `Screenshotter.save`: same precondition check, then renders and writes
the image to `path`; the successful result carries the image and the
written path (the filesystem write itself is external). -/
def Screenshotter.save (s : Screenshotter) (path : String) :
    Except ShotError (Image × String) :=
  if s.has_run = false then
    .error .runtimeNotRun
  else
    match s.renderer.render s.buffer with
    | some img => .ok (img, path)
    | none => .error .renderFailure

/-- A well-formed theme color field: `'#'` followed by exactly six
hexadecimal digits, the format every built-in theme uses. -/
def wellFormedHex (s : String) : Bool :=
  match s.data with
  | c :: rest => c = '#' && rest.length = 6 && rest.all isHexDigit
  | [] => false

/-- Descriptors on which `_get_color_rgb` cannot raise: every integer, and
every string that is either not `'#'`-prefixed (the default marker and
color names fall back to theme colors) or a well-formed hex literal. -/
def descriptorSafe : PyColor → Bool
  | .int _ => true
  | .str s => if startsWithHash s then wellFormedHex s else true

/-- A concrete renderer over the default theme with the minimum glyph
metrics guaranteed by `_calculate_char_size` (8 × 16) and the constructor
defaults (font size 14, padding 20, chrome shown). -/
def rdef : TerminalRenderer :=
  { theme := DEFAULT_THEME, font_size := 14, padding := 20,
    show_window_chrome := true, char_width := 8, char_height := 16 }

/-- `rdef` with window chrome disabled. -/
def rdefNC : TerminalRenderer :=
  { rdef with show_window_chrome := false }

/-- A blank default-colored cell, as produced by the emulator for untouched
screen positions. -/
def blankCell : Cell :=
  { char := " ", fg := PyColor.str "default", bg := PyColor.str "default" }

/-! ## Helper lemmas -/

theorem hexDigitVal_le {c : Char} {d : Nat} (h : hexDigitVal c = some d) : d ≤ 15 := by
  unfold hexDigitVal at h
  split_ifs at h with h1 h2 h3 <;> simp only [Option.some.injEq] at h <;> omega

theorem isHexDigit_ne_hash {c : Char} (h : isHexDigit c = true) : ¬(c = '#') := by
  intro hc
  subst hc
  exact absurd h (by decide)

theorem parseHex_pair {a b : Char} {da db : Nat}
    (ha : hexDigitVal a = some da) (hb : hexDigitVal b = some db) :
    parseHex [a, b] = some (da * 16 + db) ∧ da * 16 + db ≤ 255 := by
  constructor
  · simp [parseHex, parseHexAux, ha, hb]
  · have h1 := hexDigitVal_le ha
    have h2 := hexDigitVal_le hb
    omega

theorem wellFormedHex_decodes {s : String} (h : wellFormedHex s = true) :
    ∃ c : RGB, hex_to_rgb s = some c ∧ c.r ≤ 255 ∧ c.g ≤ 255 ∧ c.b ≤ 255 := by
  unfold wellFormedHex at h
  rcases hd : s.data with _ | ⟨c0, rest⟩
  · rw [hd] at h; simp at h
  rw [hd] at h
  simp only [Bool.and_eq_true, decide_eq_true_eq, List.all_eq_true] at h
  obtain ⟨⟨hc0, hlen⟩, hall⟩ := h
  subst hc0
  rcases rest with _ | ⟨a, _ | ⟨b, _ | ⟨c, _ | ⟨d, _ | ⟨e, _ | ⟨f, _ | ⟨g, tail⟩⟩⟩⟩⟩⟩⟩ <;>
    simp only [List.length] at hlen <;> try omega
  have ha := hall a (by simp)
  have hb := hall b (by simp)
  have hc := hall c (by simp)
  have hdd := hall d (by simp)
  have he := hall e (by simp)
  have hf := hall f (by simp)
  obtain ⟨va, hva⟩ := Option.isSome_iff_exists.mp ha
  obtain ⟨vb, hvb⟩ := Option.isSome_iff_exists.mp hb
  obtain ⟨vc, hvc⟩ := Option.isSome_iff_exists.mp hc
  obtain ⟨vd, hvd⟩ := Option.isSome_iff_exists.mp hdd
  obtain ⟨ve, hve⟩ := Option.isSome_iff_exists.mp he
  obtain ⟨vf, hvf⟩ := Option.isSome_iff_exists.mp hf
  have hstrip : s.data.dropWhile (fun ch => ch = '#') = [a, b, c, d, e, f] := by
    rw [hd]
    simp [List.dropWhile, isHexDigit_ne_hash ha]
  have p1 := parseHex_pair hva hvb
  have p2 := parseHex_pair hvc hvd
  have p3 := parseHex_pair hve hvf
  refine ⟨⟨va * 16 + vb, vc * 16 + vd, ve * 16 + vf⟩, ?_, p1.2, p2.2, p3.2⟩
  unfold hex_to_rgb
  rw [hstrip]
  have s1 : pySlice [a, b, c, d, e, f] 0 2 = [a, b] := by simp [pySlice]
  have s2 : pySlice [a, b, c, d, e, f] 2 4 = [c, d] := by simp [pySlice]
  have s3 : pySlice [a, b, c, d, e, f] 4 6 = [e, f] := by simp [pySlice]
  simp only [s1, s2, s3, p1.1, p2.1, p3.1]

theorem getD_eq_of_lt {l : List String} {i : Nat} (h : i < l.length) (d1 d2 : String) :
    l.getD i d1 = l.getD i d2 := by
  simp [List.getD, List.getElem?_eq_getElem h]

theorem getD_mem_of_lt {l : List String} {i : Nat} (h : i < l.length) (d : String) :
    l.getD i d ∈ l := by
  simp only [List.getD, List.get?_eq_getElem?, List.getElem?_eq_getElem h, Option.getD_some]
  exact List.getElem_mem h

/-! ## Claim theorems -/

/-- C1: for any theme with a 16-entry base palette and any palette index
`i ≤ 255`, integer color resolution returns the hex decode of
`theme.palette[i]` for `i < 16`; the 6×6×6 cube triple (with `r = j / 36`,
`g = (j / 6) % 6`, `b = j % 6` for `j = i - 16`, each channel mapped by
`0 → 0` and `n → 55 + n·40`) for `16 ≤ i ≤ 231`; and the achromatic triple
`(g, g, g)` with `g = 8 + (i - 232)·10` for `232 ≤ i ≤ 255`, which is
strictly increasing in `i`. -/
theorem resolve_palette_formulas (r : TerminalRenderer)
    (h16 : r.theme.palette.length = 16) (i : Nat) (hi : i ≤ 255) :
    (∀ b : Bool, i < 16 →
      r.get_color_rgb (PyColor.int (i : Int)) b = hex_to_rgb (r.theme.palette.getD i ""))
    ∧ (∀ b : Bool, 16 ≤ i → i ≤ 231 →
      r.get_color_rgb (PyColor.int (i : Int)) b =
        some ⟨if (i - 16) / 36 = 0 then 0 else 55 + ((i - 16) / 36) * 40,
              if ((i - 16) / 6) % 6 = 0 then 0 else 55 + (((i - 16) / 6) % 6) * 40,
              if (i - 16) % 6 = 0 then 0 else 55 + ((i - 16) % 6) * 40⟩)
    ∧ (∀ b : Bool, 232 ≤ i →
      r.get_color_rgb (PyColor.int (i : Int)) b =
        some ⟨8 + (i - 232) * 10, 8 + (i - 232) * 10, 8 + (i - 232) * 10⟩)
    ∧ (∀ j : Nat, 232 ≤ i → i < j → j ≤ 255 →
      8 + (i - 232) * 10 < 8 + (j - 232) * 10) := by
  refine ⟨?_, ?_, ?_, ?_⟩
  · intro b hlt
    simp only [TerminalRenderer.get_color_rgb]
    rw [if_pos (show (0 : Int) ≤ (i : Int) ∧ (i : Int) < 16 by omega)]
    unfold Theme.get_color
    rw [h16]
    rw [if_pos (show (0 : Int) ≤ (i : Int) ∧ (i : Int) < ((16 : Nat) : Int) by omega)]
    have hnat : ((i : Int)).toNat = i := by omega
    rw [hnat]
    exact congrArg hex_to_rgb (getD_eq_of_lt (by omega) _ _)
  · intro b h16i h231
    simp only [TerminalRenderer.get_color_rgb]
    rw [if_neg (by omega)]
    rw [if_pos (show (16 : Int) ≤ (i : Int) ∧ (i : Int) < 232 by omega)]
    have hj : ((i : Int) - 16).toNat = i - 16 := by omega
    simp only [hj]
    have hr : ((i - 16) / 36) % 6 = (i - 16) / 36 := by omega
    rw [hr]
  · intro b h232
    simp only [TerminalRenderer.get_color_rgb]
    rw [if_neg (by omega)]
    rw [if_neg (by omega)]
    rw [if_pos (show (232 : Int) ≤ (i : Int) ∧ (i : Int) < 256 by omega)]
    have hg : ((i : Int) - 232).toNat = i - 232 := by omega
    simp only [hg]
  · intro j h232 hij hj255
    omega

theorem resolve_palette_formulas_witness :
    DEFAULT_THEME.palette.length = 16 ∧ (100 : Nat) ≤ 255 ∧
      rdef.get_color_rgb (PyColor.int (100 : Int)) true = some ⟨135, 135, 0⟩ := by
  refine ⟨by decide, by decide, ?_⟩
  have h := (resolve_palette_formulas rdef (by decide) 100 (by decide)).2.1 true
    (by decide) (by decide)
  exact h.trans (by decide)

/-- C5: resolving a cell with `reverse = true` yields exactly the swapped
pair of the resolution of the same cell with `reverse = false`; the swap
acts on the two already-resolved RGB triples, and the descriptor fields of
the cell are untouched by resolution. -/
theorem resolve_cell_reverse_swap (r : TerminalRenderer) (cell : Cell) :
    r.resolve_cell { cell with reverse := true } =
      (r.resolve_cell { cell with reverse := false }).map (fun p => (p.2, p.1)) := by
  cases hfg : r.get_color_rgb cell.fg true <;>
    cases hbg : r.get_color_rgb cell.bg false <;>
      simp [TerminalRenderer.resolve_cell, hfg, hbg]

/-- C4: rendering is deterministic and mutation-free — a `render` call
returns the renderer state and the buffer unchanged, so a second call with
the state and buffer coming out of the first produces the identical image. -/
theorem render_repeatable (r : TerminalRenderer) (buffer : List (List Cell)) :
    ((r.render_call buffer).2.1.render_call (r.render_call buffer).2.2).1 =
        (r.render_call buffer).1
      ∧ (r.render_call buffer).2.1 = r
      ∧ (r.render_call buffer).2.2 = buffer :=
  ⟨rfl, rfl, rfl⟩

/-- C6: for a non-empty buffer, any image `render` produces has width
`cols·char_width + 2·padding` and height
`rows·char_height + 2·padding + chromeHeight`, where `chromeHeight` is 36
with window chrome and 0 without, and the glyph metrics are the ones cached
at renderer construction. -/
theorem render_dimensions (r : TerminalRenderer) (buffer : List (List Cell))
    (h1 : buffer ≠ []) (h2 : buffer.headD [] ≠ []) (img : Image)
    (h3 : r.render buffer = some img) :
    img.width = (buffer.headD []).length * r.char_width + 2 * r.padding
    ∧ img.height = buffer.length * r.char_height + 2 * r.padding
        + (if r.show_window_chrome then 36 else 0) := by
  unfold TerminalRenderer.render at h3
  rw [if_neg (not_or.mpr ⟨h1, h2⟩)] at h3
  split at h3 <;> rename_i hw <;> simp only [] at h3 <;> split at h3 <;>
    first
    | (rw [Option.some.injEq] at h3
       rw [← h3]
       refine ⟨rfl, ?_⟩
       simp [hw])
    | exact absurd h3 (by simp)

/-- C7: a buffer with no rows or an empty first row short-circuits: `render`
returns the 100×100 placeholder image filled with the theme background and
carrying no draw calls at all, hence uniformly background-colored. -/
theorem render_empty_placeholder (r : TerminalRenderer) (buffer : List (List Cell))
    (h : buffer = [] ∨ buffer.headD [] = []) (bg : RGB)
    (hbg : hex_to_rgb r.theme.background = some bg) :
    r.render buffer = some ⟨100, 100, bg, []⟩ := by
  unfold TerminalRenderer.render
  rw [if_pos h, hbg]
  rfl

theorem render_dimensions_witness :
    ([[blankCell]] : List (List Cell)) ≠ [] ∧ ([[blankCell]] : List (List Cell)).headD [] ≠ []
    ∧ rdefNC.render [[blankCell]] = some ⟨48, 56, ⟨30, 30, 30⟩, []⟩
    ∧ ((⟨48, 56, ⟨30, 30, 30⟩, []⟩ : Image).width
          = (([[blankCell]] : List (List Cell)).headD []).length * rdefNC.char_width
            + 2 * rdefNC.padding
        ∧ (⟨48, 56, ⟨30, 30, 30⟩, []⟩ : Image).height
          = ([[blankCell]] : List (List Cell)).length * rdefNC.char_height
            + 2 * rdefNC.padding + (if rdefNC.show_window_chrome then 36 else 0)) :=
  ⟨by decide, by decide, by decide,
    render_dimensions rdefNC [[blankCell]] (by decide) (by decide)
      ⟨48, 56, ⟨30, 30, 30⟩, []⟩ (by decide)⟩

theorem render_empty_placeholder_witness :
    (([] : List (List Cell)) = [] ∨ ([] : List (List Cell)).headD [] = [])
    ∧ hex_to_rgb rdef.theme.background = some ⟨30, 30, 30⟩
    ∧ rdef.render [] = some ⟨100, 100, ⟨30, 30, 30⟩, []⟩ :=
  ⟨Or.inl rfl, by decide,
    render_empty_placeholder rdef [] (Or.inl rfl) ⟨30, 30, 30⟩ (by decide)⟩

/-- C3 (amended): in the per-cell loop body the background rectangle is
painted exactly when the cell's background descriptor differs from the
`"default"` marker or the reverse flag is set — the test is on the raw
descriptor, not on the resolved RGB color. -/
theorem cell_bg_rect_condition (r : TerminalRenderer) (cell : Cell) (x y : Int)
    (ops : List DrawOp) (h : r.cell_ops cell x y = some ops) :
    hasBgRect ops = true ↔ (cell.bg ≠ PyColor.str "default" ∨ cell.reverse = true) := by
  unfold TerminalRenderer.cell_ops at h
  split at h
  · rw [Option.some.injEq] at h
    subst h
    by_cases hc : (cell.bg ≠ PyColor.str "default" ∨ cell.reverse = true)
    · rw [if_pos hc]
      simp only [hasBgRect, List.any_append, List.any_cons, List.any_nil, isBgRect]
      simp [hc]
    · rw [if_neg hc]
      constructor
      · intro hany
        exfalso
        rw [hasBgRect, List.nil_append, List.any_append, List.any_append] at hany
        revert hany
        split_ifs <;> simp [isBgRect]
      · intro hor
        exact absurd hor hc
  · exact absurd h (by simp)

/-- The cell used to refute C3 as stated: a background descriptor equal to
the default theme's background hex, which resolves to the canvas pre-fill
color yet is still repainted because the descriptor is not `"default"`. -/
def c3cell : Cell :=
  { char := "x", fg := PyColor.str "default", bg := PyColor.str "#1e1e1e" }

theorem cell_bg_rect_counterexample :
    (rdef.cell_ops c3cell 20 56).map hasBgRect = some true
    ∧ rdef.get_color_rgb c3cell.bg false = some ⟨30, 30, 30⟩
    ∧ hex_to_rgb rdef.theme.background = some ⟨30, 30, 30⟩
    ∧ c3cell.reverse = false := by
  decide

theorem cell_bg_rect_condition_witness :
    rdef.cell_ops c3cell 20 56 =
      some [DrawOp.rect 20 56 28 72 ⟨30, 30, 30⟩,
            DrawOp.text 20 56 "x" false ⟨212, 212, 212⟩]
    ∧ (hasBgRect [DrawOp.rect 20 56 28 72 ⟨30, 30, 30⟩,
            DrawOp.text 20 56 "x" false ⟨212, 212, 212⟩] = true
        ↔ (c3cell.bg ≠ PyColor.str "default" ∨ c3cell.reverse = true)) :=
  ⟨by decide, cell_bg_rect_condition rdef c3cell 20 56 _ (by decide)⟩

/-- C2 (amended): when the elapsed time at the top of a loop iteration has
reached the timeout, the runner sends SIGTERM (signal 15) to the child's
process group and immediately breaks out of the read loop — it performs no
further read of the pseudo-terminal, drain or otherwise — and the returned
byte string is exactly the output accumulated before the timeout expired. -/
theorem run_timeout_kills_group (T : Nat) (e : IterEnv) (rest : List IterEnv)
    (out : List Nat) (acts : List RunAction) (h : T ≤ e.elapsed) :
    runLoop (some T) (e :: rest) out acts = (out, acts ++ [RunAction.killpg 15]) := by
  unfold runLoop
  rw [if_pos (by simp [timedOut, h])]

theorem run_timeout_kills_group_witness :
    5 ≤ 7 ∧ runLoop (some 5) [⟨7, none, true, some [65], true, [66]⟩] [72, 73] []
      = ([72, 73], [RunAction.killpg 15]) :=
  ⟨by decide,
    run_timeout_kills_group 5 ⟨7, none, true, some [65], true, [66]⟩ [] [72, 73] []
      (by decide)⟩

theorem run_timeout_no_drain_counterexample :
    PTYRunner.run (some 5) [⟨5, none, true, some [65], true, [66]⟩]
      = ([], [RunAction.killpg 15]) := by
  decide

/-- C8: while `_has_run` is false, both `to_image` and `save` fail with the
usage-precondition error before any rendering happens (no image value and
no file write are produced); after any `run` call, `_has_run` is true and
neither method can fail with that error any more. -/
theorem screenshot_precondition (s : Screenshotter) (h : s.has_run = false) :
    s.to_image = Except.error ShotError.runtimeNotRun
    ∧ (∀ p, s.save p = Except.error ShotError.runtimeNotRun)
    ∧ (∀ captured buf,
        (s.run captured buf).has_run = true
        ∧ (s.run captured buf).to_image ≠ Except.error ShotError.runtimeNotRun
        ∧ ∀ p, (s.run captured buf).save p ≠ Except.error ShotError.runtimeNotRun) := by
  refine ⟨?_, ?_, ?_⟩
  · unfold Screenshotter.to_image
    rw [if_pos h]
  · intro p
    unfold Screenshotter.save
    rw [if_pos h]
  · intro captured buf
    refine ⟨rfl, ?_, ?_⟩
    · unfold Screenshotter.to_image
      rw [if_neg (by simp [Screenshotter.run])]
      split <;> simp
    · intro p
      unfold Screenshotter.save
      rw [if_neg (by simp [Screenshotter.run])]
      split <;> simp

/-- A freshly constructed `Screenshotter` (`_has_run = False`). -/
def s0 : Screenshotter :=
  { renderer := rdef, buffer := [], output := [], has_run := false }

theorem screenshot_precondition_witness :
    s0.has_run = false
    ∧ s0.to_image = Except.error ShotError.runtimeNotRun
    ∧ s0.save "out.png" = Except.error ShotError.runtimeNotRun
    ∧ (s0.run [104] [[blankCell]]).has_run = true
    ∧ (s0.run [104] [[blankCell]]).to_image ≠ Except.error ShotError.runtimeNotRun :=
  ⟨rfl, (screenshot_precondition s0 rfl).1,
    (screenshot_precondition s0 rfl).2.1 "out.png",
    ((screenshot_precondition s0 rfl).2.2 [104] [[blankCell]]).1,
    ((screenshot_precondition s0 rfl).2.2 [104] [[blankCell]]).2.1⟩

/-- C10: `get_theme` is total — for every input string it returns the
registry entry keyed by the lowercased name when one exists (lookup is
case-insensitive), and the default theme for every other string. -/
theorem get_theme_lookup (name : String) :
    (∀ t : Theme, THEMES.lookup (pyLower name) = some t → get_theme name = t)
    ∧ (THEMES.lookup (pyLower name) = none → get_theme name = DEFAULT_THEME) := by
  constructor
  · intro t ht
    unfold get_theme
    rw [ht]
    rfl
  · intro h
    unfold get_theme
    rw [h]
    rfl

theorem get_theme_lookup_witness :
    THEMES.lookup (pyLower "DRACULA") = some DRACULA_THEME
    ∧ get_theme "DRACULA" = DRACULA_THEME
    ∧ THEMES.lookup (pyLower "no-such-theme") = none
    ∧ get_theme "no-such-theme" = DEFAULT_THEME :=
  ⟨by decide, (get_theme_lookup "DRACULA").1 DRACULA_THEME (by decide),
    by decide, (get_theme_lookup "no-such-theme").2 (by decide)⟩

/-- C9 (amended): with well-formed six-digit theme hex fields, color
resolution succeeds with an in-range RGB triple for the default marker,
every integer descriptor, and every string descriptor that is either not
`'#'`-prefixed or a well-formed hex literal; integer descriptors outside
0..255 fall back to the theme foreground or background according to the
role.  (Strings starting with `'#'` whose remainder is not valid hex raise
`ValueError` in the source, so totality over all strings fails.) -/
theorem get_color_rgb_total (r : TerminalRenderer)
    (hfg : wellFormedHex r.theme.foreground = true)
    (hbg : wellFormedHex r.theme.background = true)
    (hpal : ∀ p ∈ r.theme.palette, wellFormedHex p = true)
    (color : PyColor) (role : Bool) :
    (descriptorSafe color = true →
      ∃ c : RGB, r.get_color_rgb color role = some c
        ∧ c.r ≤ 255 ∧ c.g ≤ 255 ∧ c.b ≤ 255)
    ∧ (∀ n : Int, color = PyColor.int n → (n < 0 ∨ 256 ≤ n) →
        r.get_color_rgb color role =
          hex_to_rgb (if role = true then r.theme.foreground else r.theme.background)) := by
  have hrole : wellFormedHex
      (if role = true then r.theme.foreground else r.theme.background) = true := by
    cases role <;> simpa
  constructor
  · intro hsafe
    cases color with
    | str s =>
      simp only [TerminalRenderer.get_color_rgb]
      by_cases hdef : s = "default"
      · rw [if_pos hdef]
        exact wellFormedHex_decodes hrole
      · rw [if_neg hdef]
        by_cases hhash : startsWithHash s = true
        · rw [if_pos hhash]
          have hwf : wellFormedHex s = true := by
            simp only [descriptorSafe] at hsafe
            rwa [if_pos hhash] at hsafe
          exact wellFormedHex_decodes hwf
        · rw [if_neg hhash]
          exact wellFormedHex_decodes hrole
    | int n =>
      simp only [TerminalRenderer.get_color_rgb]
      by_cases h1 : 0 ≤ n ∧ n < 16
      · rw [if_pos h1]
        unfold Theme.get_color
        by_cases h2 : 0 ≤ n ∧ n < (r.theme.palette.length : Int)
        · rw [if_pos h2]
          exact wellFormedHex_decodes (hpal _ (getD_mem_of_lt (by omega) _))
        · rw [if_neg h2]
          exact wellFormedHex_decodes hfg
      · rw [if_neg h1]
        by_cases h2 : 16 ≤ n ∧ n < 232
        · rw [if_pos h2]
          refine ⟨_, rfl, ?_, ?_, ?_⟩ <;> (dsimp only; split <;> omega)
        · rw [if_neg h2]
          by_cases h3 : 232 ≤ n ∧ n < 256
          · rw [if_pos h3]
            refine ⟨_, rfl, ?_, ?_, ?_⟩ <;> (dsimp only; omega)
          · rw [if_neg h3]
            exact wellFormedHex_decodes hrole
  · intro n hn hrange
    subst hn
    simp only [TerminalRenderer.get_color_rgb]
    rw [if_neg (by omega), if_neg (by omega), if_neg (by omega)]

theorem get_color_rgb_total_witness :
    wellFormedHex rdef.theme.foreground = true
    ∧ wellFormedHex rdef.theme.background = true
    ∧ rdef.theme.palette.all wellFormedHex = true
    ∧ descriptorSafe (PyColor.int 999) = true
    ∧ rdef.get_color_rgb (PyColor.int 999) false
        = hex_to_rgb (if false = true then rdef.theme.foreground else rdef.theme.background) :=
  ⟨by decide, by decide, by decide, by decide,
    (get_color_rgb_total rdef (by decide) (by decide) (by decide) (PyColor.int 999) false).2
      999 rfl (Or.inr (by decide))⟩

theorem get_color_rgb_malformed_counterexample :
    rdef.get_color_rgb (PyColor.str "#gg0000") true = none
    ∧ wellFormedHex DEFAULT_THEME.foreground = true
    ∧ wellFormedHex DEFAULT_THEME.background = true
    ∧ DEFAULT_THEME.palette.all wellFormedHex = true := by
  decide

end Termshot


